import Mathlib

/-!
Verification of the CRS container/serializer module (pycrs/elements/containers.py).

The module builds a tree of CRS components (Ellipsoid, Datum, GeogCS, Projection,
ProjCS, CRS) and renders it to three textual grammars: PROJ parameter strings,
OGC WKT and ESRI WKT.  Python floats are modelled by the decimal text that
Python's `%s` formatting produces for them; catalog name classes (from the
`datums` / `ellipsoids` / `directions` modules, which are outside the shown
source) are modelled from the spec as records of identifier strings, with
`isUnknown` standing for the `isinstance(name, <module>.Unknown)` test and the
empty string standing for a falsy (absent) PROJ identifier, matching the truth
test `not self.name.proj4`.
-/

set_option maxRecDepth 4000

/-- Modelled from the spec: the external parameter collaborators (prime meridian,
angular unit, linear unit, projection parameters) that are not in the shown
source.  Each exposes `to_proj4` / `to_ogc_wkt` / `to_esri_wkt` render methods;
an object is modelled by the three strings those renders return. -/
structure RenderObj where
  proj4 : String
  ogc_wkt : String
  esri_wkt : String

def RenderObj.to_proj4 (r : RenderObj) : String := r.proj4

def RenderObj.to_ogc_wkt (r : RenderObj) : String := r.ogc_wkt

def RenderObj.to_esri_wkt (r : RenderObj) : String := r.esri_wkt

/-- Modelled from the spec: a `pycrs.elements.parameters.DatumShift` instance
(not in the shown source), an opaque collaborator modelled by the three strings
its renders return. -/
structure DatumShift where
  proj4 : String
  ogc_wkt : String
  esri_wkt : String

def DatumShift.to_proj4 (d : DatumShift) : String := d.proj4

def DatumShift.to_ogc_wkt (d : DatumShift) : String := d.ogc_wkt

def DatumShift.to_esri_wkt (d : DatumShift) : String := d.esri_wkt

/-- Modelled from the spec: a catalog entry from `pycrs.elements.datums`
(module not in the shown source).  `isUnknown` models
`isinstance(name, datums.Unknown)`; `proj4 = ""` models a falsy/absent PROJ
identifier (`not self.name.proj4`). -/
structure DatumName where
  isUnknown : Bool
  proj4 : String
  ogc_wkt : String
  esri_wkt : String

/-- Modelled from the spec: a catalog entry from `pycrs.elements.ellipsoids`
(module not in the shown source), which also supplies default numeric
semimajor-axis / inverse-flattening values (kept as their rendered decimal
text).  `isUnknown` models `isinstance(name, ellipsoids.Unknown)`; `proj4 = ""`
models a falsy/absent PROJ identifier. -/
structure EllipsoidName where
  isUnknown : Bool
  proj4 : String
  ogc_wkt : String
  esri_wkt : String
  semimaj_ax : String
  inv_flat : String

/-- Modelled from the spec: a catalog entry from `pycrs.elements.projections`
(module not in the shown source). -/
structure ProjectionName where
  proj4 : String
  ogc_wkt : String
  esri_wkt : String

/-- Modelled from the spec: an axis direction class from
`pycrs.elements.directions` (module not in the shown source), exposing the
grammar identifiers of the direction. -/
structure Direction where
  proj4 : String
  ogc_wkt : String
  esri_wkt : String

/-- Modelled from the spec: `pycrs.elements.directions.East()`. -/
def directions_East : Direction := { proj4 := "e", ogc_wkt := "EAST", esri_wkt := "EAST" }

/-- Modelled from the spec: `pycrs.elements.directions.North()`. -/
def directions_North : Direction := { proj4 := "n", ogc_wkt := "NORTH", esri_wkt := "NORTH" }

/-- The `" ".join(...)` / `", ".join(...)` operation of Python. -/
def joinWith (sep : String) : List String → String
  | [] => ""
  | [a] => a
  | a :: b :: rest => a ++ sep ++ joinWith sep (b :: rest)

/-- class Projection: a generic container for the specific projection used. -/
structure Projection where
  value : ProjectionName

def Projection.to_proj4 (p : Projection) : String := "+proj=" ++ p.value.proj4

def Projection.to_ogc_wkt (p : Projection) : String := "PROJECTION[\"" ++ p.value.ogc_wkt ++ "\"]"

def Projection.to_esri_wkt (p : Projection) : String := "PROJECTION[\"" ++ p.value.esri_wkt ++ "\"]"

/-- class Ellipsoid: the ellipsoid that defines the shape of the earth.
`semimaj_ax` and `inv_flat` hold the rendered decimal text of the floats. -/
structure Ellipsoid where
  name : EllipsoidName
  semimaj_ax : String
  inv_flat : String

/-- `Ellipsoid.__init__(self, name, semimaj_ax=None, inv_flat=None)`: missing
numeric arguments are filled from the catalog entry (`self.name.semimaj_ax`,
`self.name.inv_flat`). -/
def Ellipsoid.init (name : EllipsoidName) (semimaj_ax : Option String)
    (inv_flat : Option String) : Ellipsoid :=
  { name := name
    semimaj_ax := semimaj_ax.getD name.semimaj_ax
    inv_flat := inv_flat.getD name.inv_flat }

/-- `Ellipsoid.to_proj4`. -/
def Ellipsoid.to_proj4 (e : Ellipsoid) : String :=
  if e.name.isUnknown then
    "+a=" ++ e.semimaj_ax ++ " +f=" ++ e.inv_flat
  else if e.name.proj4 = "" then
    "+a=" ++ e.semimaj_ax ++ " +f=" ++ e.inv_flat
  else
    "+ellps=" ++ e.name.proj4 ++ " +a=" ++ e.semimaj_ax ++ " +f=" ++ e.inv_flat

/-- `Ellipsoid.to_ogc_wkt`. -/
def Ellipsoid.to_ogc_wkt (e : Ellipsoid) : String :=
  "SPHEROID[\"" ++ e.name.ogc_wkt ++ "\", " ++ e.semimaj_ax ++ ", " ++ e.inv_flat ++ "]"

/-- `Ellipsoid.to_esri_wkt`. -/
def Ellipsoid.to_esri_wkt (e : Ellipsoid) : String :=
  "SPHEROID[\"" ++ e.name.esri_wkt ++ "\", " ++ e.semimaj_ax ++ ", " ++ e.inv_flat ++ "]"

/-- class Datum: a Datum defines the shape of the earth (a name reference, an
ellipsoid, and an optional datum shift). -/
structure Datum where
  name : DatumName
  ellips : Ellipsoid
  datumshift : Option DatumShift

/-- `Datum.to_proj4`: shift branch first, then the Unknown sentinel, then a
missing PROJ identifier, else the `+datum=` alias. -/
def Datum.to_proj4 (d : Datum) : String :=
  match d.datumshift with
  | some ds => d.ellips.to_proj4 ++ " " ++ ds.to_proj4
  | none =>
    if d.name.isUnknown then
      d.ellips.to_proj4
    else if d.name.proj4 = "" then
      d.ellips.to_proj4
    else
      "+datum=" ++ d.name.proj4 ++ " " ++ d.ellips.to_proj4

/-- `Datum.to_ogc_wkt`. -/
def Datum.to_ogc_wkt (d : Datum) : String :=
  match d.datumshift with
  | some ds =>
    "DATUM[\"" ++ d.name.ogc_wkt ++ "\", " ++ d.ellips.to_ogc_wkt ++ ", " ++ ds.to_ogc_wkt ++ "]"
  | none =>
    "DATUM[\"" ++ d.name.ogc_wkt ++ "\", " ++ d.ellips.to_ogc_wkt ++ "]"

/-- `Datum.to_esri_wkt`. -/
def Datum.to_esri_wkt (d : Datum) : String :=
  match d.datumshift with
  | some ds =>
    "DATUM[\"" ++ d.name.esri_wkt ++ "\", " ++ d.ellips.to_esri_wkt ++ ", " ++ ds.to_esri_wkt ++ "]"
  | none =>
    "DATUM[\"" ++ d.name.esri_wkt ++ "\", " ++ d.ellips.to_esri_wkt ++ "]"

/-- class GeogCS: a geographic coordinate system. -/
structure GeogCS where
  name : String
  datum : Datum
  prime_mer : RenderObj
  angunit : RenderObj
  twin_ax : Direction × Direction

/-- `GeogCS.__init__(self, name, datum, prime_mer, angunit, twin_ax=None)`:
when `twin_ax` is not supplied it defaults to `(East(), North())`. -/
def GeogCS.init (name : String) (datum : Datum) (prime_mer : RenderObj)
    (angunit : RenderObj) (twin_ax : Option (Direction × Direction)) : GeogCS :=
  { name := name
    datum := datum
    prime_mer := prime_mer
    angunit := angunit
    twin_ax := twin_ax.getD (directions_East, directions_North) }

/-- `GeogCS.to_proj4`: axes are deliberately not rendered. -/
def GeogCS.to_proj4 (g : GeogCS) : String :=
  g.datum.to_proj4 ++ " " ++ g.prime_mer.to_proj4 ++ " " ++ g.angunit.to_proj4

/-- `GeogCS.to_ogc_wkt`. -/
def GeogCS.to_ogc_wkt (g : GeogCS) : String :=
  "GEOGCS[\"" ++ g.name ++ "\", " ++ g.datum.to_ogc_wkt ++ ", " ++ g.prime_mer.to_ogc_wkt
    ++ ", " ++ g.angunit.to_ogc_wkt ++ ", AXIS[\"Lon\", " ++ g.twin_ax.1.ogc_wkt
    ++ "], AXIS[\"Lat\", " ++ g.twin_ax.2.ogc_wkt ++ "]]"

/-- `GeogCS.to_esri_wkt`. -/
def GeogCS.to_esri_wkt (g : GeogCS) : String :=
  "GEOGCS[\"" ++ g.name ++ "\", " ++ g.datum.to_esri_wkt ++ ", " ++ g.prime_mer.to_esri_wkt
    ++ ", " ++ g.angunit.to_esri_wkt ++ ", AXIS[\"Lon\", " ++ g.twin_ax.1.esri_wkt
    ++ "], AXIS[\"Lat\", " ++ g.twin_ax.2.esri_wkt ++ "]]"

/-- class ProjCS: a projected coordinate system. -/
structure ProjCS where
  name : String
  geogcs : GeogCS
  proj : Projection
  params : List RenderObj
  unit : RenderObj
  twin_ax : Direction × Direction

/-- `ProjCS.__init__(self, name, geogcs, proj, params, unit, twin_ax=None)`:
when `twin_ax` is not supplied it defaults to `(East(), North())`. -/
def ProjCS.init (name : String) (geogcs : GeogCS) (proj : Projection)
    (params : List RenderObj) (unit : RenderObj)
    (twin_ax : Option (Direction × Direction)) : ProjCS :=
  { name := name
    geogcs := geogcs
    proj := proj
    params := params
    unit := unit
    twin_ax := twin_ax.getD (directions_East, directions_North) }

/-- `ProjCS.to_proj4`: projection, geogcs, space-joined params, unit, then the
`+axis=` flag with a hard-coded trailing `u`. -/
def ProjCS.to_proj4 (p : ProjCS) : String :=
  p.proj.to_proj4 ++ " " ++ p.geogcs.to_proj4 ++ " "
    ++ joinWith " " (p.params.map RenderObj.to_proj4)
    ++ " " ++ p.unit.to_proj4
    ++ " +axis=" ++ p.twin_ax.1.proj4 ++ p.twin_ax.2.proj4 ++ "u"

/-- `ProjCS.to_ogc_wkt`. -/
def ProjCS.to_ogc_wkt (p : ProjCS) : String :=
  "PROJCS[\"" ++ p.name ++ "\", " ++ p.geogcs.to_ogc_wkt ++ ", " ++ p.proj.to_ogc_wkt ++ ", "
    ++ joinWith ", " (p.params.map RenderObj.to_ogc_wkt)
    ++ ", " ++ p.unit.to_ogc_wkt
    ++ ", AXIS[\"X\", " ++ p.twin_ax.1.ogc_wkt ++ "], AXIS[\"Y\", " ++ p.twin_ax.2.ogc_wkt ++ "]]"

/-- `ProjCS.to_esri_wkt`. -/
def ProjCS.to_esri_wkt (p : ProjCS) : String :=
  "PROJCS[\"" ++ p.name ++ "\", " ++ p.geogcs.to_esri_wkt ++ ", " ++ p.proj.to_esri_wkt ++ ", "
    ++ joinWith ", " (p.params.map RenderObj.to_esri_wkt)
    ++ ", " ++ p.unit.to_esri_wkt
    ++ ", AXIS[\"X\", " ++ p.twin_ax.1.esri_wkt ++ "], AXIS[\"Y\", " ++ p.twin_ax.2.esri_wkt ++ "]]"

/-- The dynamically typed `toplevel` argument of `CRS.__init__`: a `ProjCS`, a
`GeogCS`, or any other Python object (which fails both `isinstance` tests). -/
inductive TopLevel where
  | projcs (p : ProjCS)
  | geogcs (g : GeogCS)
  | other

/-- class CRS: the main CRS class. -/
structure CRS where
  toplevel : TopLevel

/-- `CRS.__init__(self, toplevel)`: stores the argument with no validation. -/
def CRS.init (toplevel : TopLevel) : CRS := { toplevel := toplevel }

/-- `CRS.to_proj4`: `isinstance` dispatch; a Python function that falls through
both branches implicitly returns `None`, modelled as `none`. -/
def CRS.to_proj4 (c : CRS) : Option String :=
  match c.toplevel with
  | .projcs p => some (p.to_proj4 ++ " +no_defs")
  | .geogcs g => some ("+proj=longlat " ++ g.to_proj4 ++ " +no_defs")
  | .other => none

/-- `CRS.to_ogc_wkt`: delegates to the root's render; for a root that is
neither a `ProjCS` nor a `GeogCS` the dynamic method call is undefined
(`AttributeError` territory), modelled as `none`. -/
def CRS.to_ogc_wkt (c : CRS) : Option String :=
  match c.toplevel with
  | .projcs p => some p.to_ogc_wkt
  | .geogcs g => some g.to_ogc_wkt
  | .other => none

/-- `CRS.to_esri_wkt`: delegates to the root's render, as `CRS.to_ogc_wkt`. -/
def CRS.to_esri_wkt (c : CRS) : Option String :=
  match c.toplevel with
  | .projcs p => some p.to_esri_wkt
  | .geogcs g => some g.to_esri_wkt
  | .other => none

/-- A token occurs in a rendered string when its characters form a contiguous
run of the string's characters. -/
def hasTok (tok s : String) : Prop := tok.data <:+: s.data

instance (tok s : String) : Decidable (hasTok tok s) :=
  inferInstanceAs (Decidable (tok.data <:+: s.data))

/-- A string starts with a given string. -/
def hasPre (p s : String) : Prop := p.data <+: s.data

instance (p s : String) : Decidable (hasPre p s) :=
  inferInstanceAs (Decidable (p.data <+: s.data))

/-- A catalog identifier or rendered numeric value is plus-free: it contains no
`+` character, so it cannot start a PROJ token of its own. -/
def plusFree (s : String) : Prop := '+' ∉ s.data

instance (s : String) : Decidable (plusFree s) :=
  inferInstanceAs (Decidable ('+' ∉ s.data))

/-! ### List-level token machinery

The PROJ renders are space-joined `+key=value` tokens.  The lemmas below let a
claimed token absence be reduced to the individual pieces of a render: a
space-free pattern occurring in `a ++ ' ' :: b` occurs wholly inside `a` or
wholly inside `b`, and a pattern starting with `+` can only occur in a piece
`'+' :: l` (with `+` not in `l`) by being a prefix of the piece. -/

theorem consPreCons {a b : Char} {l1 l2 : List Char} (h : (a :: l1) <+: (b :: l2)) :
    a = b ∧ l1 <+: l2 := by
  obtain ⟨t, ht⟩ := h
  rw [List.cons_append] at ht
  injection ht with h1 h2
  exact ⟨h1, t, h2⟩

theorem inOfPre {p l : List Char} (h : p <+: l) : p <:+: l := by
  obtain ⟨t, ht⟩ := h
  exact ⟨[], t, ht⟩

theorem inCons {p : List Char} {x : Char} {l : List Char} (h : p <:+: (x :: l)) :
    p <+: (x :: l) ∨ p <:+: l := by
  obtain ⟨s, t, hst⟩ := h
  cases s with
  | nil => exact Or.inl ⟨t, by simpa using hst⟩
  | cons y s' =>
    rw [List.cons_append, List.cons_append] at hst
    injection hst with h1 h2
    exact Or.inr ⟨s', t, h2⟩

theorem memOfIn {p l : List Char} {c : Char} (hc : c ∈ p) (h : p <:+: l) : c ∈ l := by
  obtain ⟨s, t, ht⟩ := h
  exact ht ▸ (List.mem_append.mpr (Or.inl (List.mem_append.mpr (Or.inr hc))))

theorem notMemConsOfNe {c d : Char} {l : List Char} (h1 : c ≠ d) (h2 : c ∉ l) :
    c ∉ d :: l := by
  intro hm
  rcases List.mem_cons.mp hm with h | h
  · exact h1 h
  · exact h2 h

theorem preBeforeSep : ∀ {a q b : List Char}, ' ' ∉ q → q <+: a ++ ' ' :: b → q <+: a := by
  intro a
  induction a with
  | nil =>
    intro q b hq h
    cases q with
    | nil => exact ⟨[], rfl⟩
    | cons c q' =>
      rw [List.nil_append] at h
      obtain ⟨hc, -⟩ := consPreCons h
      subst hc
      exact absurd (List.mem_cons_self _ _) hq
  | cons x a' ih =>
    intro q b hq h
    cases q with
    | nil => exact ⟨x :: a', rfl⟩
    | cons c q' =>
      rw [List.cons_append] at h
      obtain ⟨hc, h2⟩ := consPreCons h
      subst hc
      have hq' : ' ' ∉ q' := fun hm => hq (List.mem_cons_of_mem _ hm)
      obtain ⟨t, ht⟩ := ih hq' h2
      exact ⟨t, by rw [List.cons_append, ht]⟩

theorem splitAtSpace : ∀ {a p b : List Char}, ' ' ∉ p →
    p <:+: a ++ ' ' :: b → p <:+: a ∨ p <:+: b := by
  intro a
  induction a with
  | nil =>
    intro p b hp h
    rw [List.nil_append] at h
    rcases inCons h with h1 | h2
    · obtain ⟨t, ht⟩ := preBeforeSep (a := []) hp (by simpa using h1)
      have hnil : p = [] := by
        have := List.append_eq_nil.mp ht
        exact this.1
      subst hnil
      exact Or.inl ⟨[], [], rfl⟩
    · exact Or.inr h2
  | cons x a' ih =>
    intro p b hp h
    rw [List.cons_append] at h
    rcases inCons h with h1 | h2
    · have hpre : p <+: x :: a' :=
        preBeforeSep (a := x :: a') hp (by rw [List.cons_append]; exact h1)
      exact Or.inl (inOfPre hpre)
    · rcases ih hp h2 with h3 | h4
      · obtain ⟨s, t, hst⟩ := h3
        exact Or.inl ⟨x :: s, t, by rw [List.cons_append, List.cons_append, hst]⟩
      · exact Or.inr h4

theorem splitJoin {p : List Char} (hp : ' ' ∉ p) (hne : p ≠ []) :
    ∀ l : List String, p <:+: (joinWith " " l).data → ∃ s ∈ l, p <:+: s.data := by
  intro l
  induction l with
  | nil =>
    intro h
    obtain ⟨s, t, hst⟩ := h
    have : s ++ p ++ t = ([] : List Char) := hst
    have h2 := List.append_eq_nil.mp ( List.append_eq_nil.mp this).1
    exact absurd h2.2 hne
  | cons a rest ih =>
    cases rest with
    | nil =>
      intro h
      exact ⟨a, List.mem_cons_self _ _, h⟩
    | cons b t =>
      intro h
      have hdata : (joinWith " " (a :: b :: t)).data = a.data ++ ' ' :: (joinWith " " (b :: t)).data := by
        show (a ++ " " ++ joinWith " " (b :: t)).data = _
        simp [List.append_assoc]
      rw [hdata] at h
      rcases splitAtSpace hp h with h1 | h2
      · exact ⟨a, List.mem_cons_self _ _, h1⟩
      · obtain ⟨s, hs, hw⟩ := ih h2
        exact ⟨s, List.mem_cons_of_mem _ hs, hw⟩

theorem plusAnchor {p' l : List Char} (hl : '+' ∉ l) (h : ('+' :: p') <:+: ('+' :: l)) :
    ('+' :: p') <+: ('+' :: l) := by
  rcases inCons h with h1 | h2
  · exact h1
  · exact absurd (memOfIn (List.mem_cons_self _ _) h2) hl

theorem noTokInPiece2 {c1 c2 d1 d2 : Char} {q l : List Char}
    (hne : ¬ (c1 = d1 ∧ c2 = d2)) (hplus : '+' ∉ (d1 :: d2 :: l)) :
    ¬ ('+' :: c1 :: c2 :: q) <:+: ('+' :: d1 :: d2 :: l) := by
  intro h
  have hpre := plusAnchor hplus h
  obtain ⟨-, hpre⟩ := consPreCons hpre
  obtain ⟨h1, hpre⟩ := consPreCons hpre
  obtain ⟨h2, -⟩ := consPreCons hpre
  exact hne ⟨h1, h2⟩

theorem data_app (s t : String) : (s ++ t).data = s.data ++ t.data := rfl

theorem notMemLitApp {c : Char} {lit v : List Char} (h1 : c ∉ lit) (h2 : c ∉ v) :
    c ∉ lit ++ v := by
  intro hm
  rcases List.mem_append.mp hm with h | h
  · exact h1 h
  · exact h2 h

/-- A space-free pattern `+<c1><c2>...` that mismatches the raw-numeric and the
named ellipsoid pieces never occurs in an `Ellipsoid.to_proj4` render whose
identifier and numeric fields contain no `+`. -/
theorem ellipsNoTok (e : Ellipsoid) {c1 c2 : Char} {q : List Char}
    (hsp : ' ' ∉ ('+' :: c1 :: c2 :: q))
    (hm1 : ¬ (c1 = 'e' ∧ c2 = 'l')) (hm2 : ¬ (c1 = 'a' ∧ c2 = '='))
    (hm3 : ¬ (c1 = 'f' ∧ c2 = '='))
    (h1 : '+' ∉ e.name.proj4.data) (h2 : '+' ∉ e.semimaj_ax.data)
    (h3 : '+' ∉ e.inv_flat.data) :
    ¬ ('+' :: c1 :: c2 :: q) <:+: e.to_proj4.data := by
  intro h
  have hraw : ¬ ('+' :: c1 :: c2 :: q) <:+: ("+a=" ++ e.semimaj_ax ++ " +f=" ++ e.inv_flat).data := by
    have hdata : ("+a=" ++ e.semimaj_ax ++ " +f=" ++ e.inv_flat).data
        = ('+' :: 'a' :: '=' :: e.semimaj_ax.data)
          ++ ' ' :: ('+' :: 'f' :: '=' :: e.inv_flat.data) := by
      simp [data_app, List.append_assoc]
    rw [hdata]
    intro hx
    rcases splitAtSpace hsp hx with hL | hR
    · exact noTokInPiece2 hm2 (@notMemLitApp '+' ['a', '='] e.semimaj_ax.data (by decide) h2) hL
    · exact noTokInPiece2 hm3 (@notMemLitApp '+' ['f', '='] e.inv_flat.data (by decide) h3) hR
  rw [Ellipsoid.to_proj4] at h
  by_cases hu : e.name.isUnknown = true
  · rw [if_pos hu] at h
    exact hraw h
  · rw [if_neg hu] at h
    by_cases hid : e.name.proj4 = ""
    · rw [if_pos hid] at h
      exact hraw h
    · rw [if_neg hid] at h
      have hdata : ("+ellps=" ++ e.name.proj4 ++ " +a=" ++ e.semimaj_ax ++ " +f=" ++ e.inv_flat).data
          = ('+' :: 'e' :: 'l' :: 'l' :: 'p' :: 's' :: '=' :: e.name.proj4.data)
            ++ ' ' :: (('+' :: 'a' :: '=' :: e.semimaj_ax.data)
              ++ ' ' :: ('+' :: 'f' :: '=' :: e.inv_flat.data)) := by
        simp [data_app, List.append_assoc]
      rw [hdata] at h
      rcases splitAtSpace hsp h with hL | hR
      · exact noTokInPiece2 hm1
          (@notMemLitApp '+' ['e', 'l', 'l', 'p', 's', '='] e.name.proj4.data (by decide) h1) hL
      · rcases splitAtSpace hsp hR with hA | hF
        · exact noTokInPiece2 hm2 (@notMemLitApp '+' ['a', '='] e.semimaj_ax.data (by decide) h2) hA
        · exact noTokInPiece2 hm3 (@notMemLitApp '+' ['f', '='] e.inv_flat.data (by decide) h3) hF

/-- A space-free pattern `+<c1><c2>...` that mismatches the ellipsoid pieces and
the `+datum=` piece, and does not occur in a present datum shift's render,
never occurs in a `Datum.to_proj4` render with plus-free leaf fields. -/
theorem datumNoTok (d : Datum) {c1 c2 : Char} {q : List Char}
    (hsp : ' ' ∉ ('+' :: c1 :: c2 :: q))
    (hm1 : ¬ (c1 = 'e' ∧ c2 = 'l')) (hm2 : ¬ (c1 = 'a' ∧ c2 = '='))
    (hm3 : ¬ (c1 = 'f' ∧ c2 = '=')) (hm4 : ¬ (c1 = 'd' ∧ c2 = 'a'))
    (h1 : '+' ∉ d.ellips.name.proj4.data) (h2 : '+' ∉ d.ellips.semimaj_ax.data)
    (h3 : '+' ∉ d.ellips.inv_flat.data) (h4 : '+' ∉ d.name.proj4.data)
    (hds : ∀ ds, d.datumshift = some ds → ¬ ('+' :: c1 :: c2 :: q) <:+: ds.proj4.data) :
    ¬ ('+' :: c1 :: c2 :: q) <:+: d.to_proj4.data := by
  intro h
  rcases hdsm : d.datumshift with _ | ds
  · simp only [Datum.to_proj4, hdsm] at h
    by_cases hu : d.name.isUnknown = true
    · rw [if_pos hu] at h
      exact ellipsNoTok d.ellips hsp hm1 hm2 hm3 h1 h2 h3 h
    · rw [if_neg hu] at h
      by_cases hid : d.name.proj4 = ""
      · rw [if_pos hid] at h
        exact ellipsNoTok d.ellips hsp hm1 hm2 hm3 h1 h2 h3 h
      · rw [if_neg hid] at h
        have hdata : ("+datum=" ++ d.name.proj4 ++ " " ++ d.ellips.to_proj4).data
            = ('+' :: 'd' :: 'a' :: 't' :: 'u' :: 'm' :: '=' :: d.name.proj4.data)
              ++ ' ' :: d.ellips.to_proj4.data := by
          simp [data_app, List.append_assoc]
        rw [hdata] at h
        rcases splitAtSpace hsp h with hL | hR
        · exact noTokInPiece2 hm4
            (@notMemLitApp '+' ['d', 'a', 't', 'u', 'm', '='] d.name.proj4.data (by decide) h4) hL
        · exact ellipsNoTok d.ellips hsp hm1 hm2 hm3 h1 h2 h3 hR
  · simp only [Datum.to_proj4, hdsm] at h
    have hdata : (d.ellips.to_proj4 ++ " " ++ ds.to_proj4).data
        = d.ellips.to_proj4.data ++ ' ' :: ds.proj4.data := by
      simp [data_app, DatumShift.to_proj4, List.append_assoc]
    rw [hdata] at h
    rcases splitAtSpace hsp h with hL | hR
    · exact ellipsNoTok d.ellips hsp hm1 hm2 hm3 h1 h2 h3 hL
    · exact hds ds hdsm hR

/-- A space-free pattern `+<c1><c2>...` that mismatches all datum/ellipsoid
pieces and does not occur in the opaque prime-meridian, angular-unit or
datum-shift renders never occurs in a `GeogCS.to_proj4` render with plus-free
leaf fields. -/
theorem geogNoTok (g : GeogCS) {c1 c2 : Char} {q : List Char}
    (hsp : ' ' ∉ ('+' :: c1 :: c2 :: q))
    (hm1 : ¬ (c1 = 'e' ∧ c2 = 'l')) (hm2 : ¬ (c1 = 'a' ∧ c2 = '='))
    (hm3 : ¬ (c1 = 'f' ∧ c2 = '=')) (hm4 : ¬ (c1 = 'd' ∧ c2 = 'a'))
    (h1 : '+' ∉ g.datum.ellips.name.proj4.data) (h2 : '+' ∉ g.datum.ellips.semimaj_ax.data)
    (h3 : '+' ∉ g.datum.ellips.inv_flat.data) (h4 : '+' ∉ g.datum.name.proj4.data)
    (hds : ∀ ds, g.datum.datumshift = some ds → ¬ ('+' :: c1 :: c2 :: q) <:+: ds.proj4.data)
    (hpm : ¬ ('+' :: c1 :: c2 :: q) <:+: g.prime_mer.proj4.data)
    (hau : ¬ ('+' :: c1 :: c2 :: q) <:+: g.angunit.proj4.data) :
    ¬ ('+' :: c1 :: c2 :: q) <:+: g.to_proj4.data := by
  intro h
  have hdata : g.to_proj4.data
      = g.datum.to_proj4.data ++ ' ' :: (g.prime_mer.proj4.data ++ ' ' :: g.angunit.proj4.data) := by
    simp [GeogCS.to_proj4, RenderObj.to_proj4, data_app, List.append_assoc]
  rw [hdata] at h
  rcases splitAtSpace hsp h with hL | hR
  · exact datumNoTok g.datum hsp hm1 hm2 hm3 hm4 h1 h2 h3 h4 hds hL
  · rcases splitAtSpace hsp hR with hM | hA
    · exact hpm hM
    · exact hau hA

/-! ### Claims -/

/-- C4: for every ProjCS and every parameter list, the rendered parameter
sub-sequence in each of the three grammars (PROJ, OGC WKT, ESRI WKT) is the
renders of the parameters in construction order; constructing with the
reversed list yields the rendered parameter renders in reversed order. -/
theorem claim_C4 (n : String) (g : GeogCS) (pr : Projection) (ps : List RenderObj)
    (u : RenderObj) (ax : Direction × Direction) :
    (ProjCS.mk n g pr ps u ax).to_proj4
      = pr.to_proj4 ++ " " ++ g.to_proj4 ++ " "
        ++ joinWith " " (ps.map RenderObj.to_proj4)
        ++ " " ++ u.to_proj4 ++ " +axis=" ++ ax.1.proj4 ++ ax.2.proj4 ++ "u"
  ∧ (ProjCS.mk n g pr ps u ax).to_ogc_wkt
      = "PROJCS[\"" ++ n ++ "\", " ++ g.to_ogc_wkt ++ ", " ++ pr.to_ogc_wkt ++ ", "
        ++ joinWith ", " (ps.map RenderObj.to_ogc_wkt)
        ++ ", " ++ u.to_ogc_wkt
        ++ ", AXIS[\"X\", " ++ ax.1.ogc_wkt ++ "], AXIS[\"Y\", " ++ ax.2.ogc_wkt ++ "]]"
  ∧ (ProjCS.mk n g pr ps u ax).to_esri_wkt
      = "PROJCS[\"" ++ n ++ "\", " ++ g.to_esri_wkt ++ ", " ++ pr.to_esri_wkt ++ ", "
        ++ joinWith ", " (ps.map RenderObj.to_esri_wkt)
        ++ ", " ++ u.to_esri_wkt
        ++ ", AXIS[\"X\", " ++ ax.1.esri_wkt ++ "], AXIS[\"Y\", " ++ ax.2.esri_wkt ++ "]]"
  ∧ (ProjCS.mk n g pr ps.reverse u ax).to_proj4
      = pr.to_proj4 ++ " " ++ g.to_proj4 ++ " "
        ++ joinWith " " ((ps.map RenderObj.to_proj4).reverse)
        ++ " " ++ u.to_proj4 ++ " +axis=" ++ ax.1.proj4 ++ ax.2.proj4 ++ "u"
  ∧ (ProjCS.mk n g pr ps.reverse u ax).to_ogc_wkt
      = "PROJCS[\"" ++ n ++ "\", " ++ g.to_ogc_wkt ++ ", " ++ pr.to_ogc_wkt ++ ", "
        ++ joinWith ", " ((ps.map RenderObj.to_ogc_wkt).reverse)
        ++ ", " ++ u.to_ogc_wkt
        ++ ", AXIS[\"X\", " ++ ax.1.ogc_wkt ++ "], AXIS[\"Y\", " ++ ax.2.ogc_wkt ++ "]]"
  ∧ (ProjCS.mk n g pr ps.reverse u ax).to_esri_wkt
      = "PROJCS[\"" ++ n ++ "\", " ++ g.to_esri_wkt ++ ", " ++ pr.to_esri_wkt ++ ", "
        ++ joinWith ", " ((ps.map RenderObj.to_esri_wkt).reverse)
        ++ ", " ++ u.to_esri_wkt
        ++ ", AXIS[\"X\", " ++ ax.1.esri_wkt ++ "], AXIS[\"Y\", " ++ ax.2.esri_wkt ++ "]]" := by
  refine ⟨rfl, rfl, rfl, ?_, ?_, ?_⟩
  · simp only [ProjCS.to_proj4, List.map_reverse]
  · simp only [ProjCS.to_ogc_wkt, List.map_reverse]
  · simp only [ProjCS.to_esri_wkt, List.map_reverse]

/-- C5: every ProjCS PROJ render is assembled as projection render, space,
base GeogCS render, space, space-joined parameter renders in order, space,
unit render, then an `+axis=` suffix of the two axis-direction characters and
the literal character `u`, which is the last character for every input. -/
theorem claim_C5 (p : ProjCS) :
    p.to_proj4
      = p.proj.to_proj4 ++ " " ++ p.geogcs.to_proj4 ++ " "
        ++ joinWith " " (p.params.map RenderObj.to_proj4)
        ++ " " ++ p.unit.to_proj4
        ++ " +axis=" ++ p.twin_ax.1.proj4 ++ p.twin_ax.2.proj4 ++ "u"
  ∧ p.to_proj4.data.getLast? = some 'u' := by
  refine ⟨rfl, ?_⟩
  show ((p.proj.to_proj4 ++ " " ++ p.geogcs.to_proj4 ++ " "
        ++ joinWith " " (p.params.map RenderObj.to_proj4)
        ++ " " ++ p.unit.to_proj4
        ++ " +axis=" ++ p.twin_ax.1.proj4 ++ p.twin_ax.2.proj4) ++ "u").data.getLast? = some 'u'
  rw [data_app]
  exact List.getLast?_concat _

/-- C6: a GeogCS or ProjCS constructed without an explicit axis pair stores the
(East, North) pair, so all renders equal those of an explicit East-then-North
construction. -/
theorem claim_C6 (gn : String) (d : Datum) (pm au : RenderObj)
    (pn : String) (g : GeogCS) (pr : Projection) (ps : List RenderObj) (u : RenderObj) :
    (GeogCS.init gn d pm au none).twin_ax = (directions_East, directions_North)
  ∧ (ProjCS.init pn g pr ps u none).twin_ax = (directions_East, directions_North)
  ∧ (GeogCS.init gn d pm au none).to_ogc_wkt
      = (GeogCS.init gn d pm au (some (directions_East, directions_North))).to_ogc_wkt
  ∧ (GeogCS.init gn d pm au none).to_esri_wkt
      = (GeogCS.init gn d pm au (some (directions_East, directions_North))).to_esri_wkt
  ∧ (ProjCS.init pn g pr ps u none).to_proj4
      = (ProjCS.init pn g pr ps u (some (directions_East, directions_North))).to_proj4
  ∧ (ProjCS.init pn g pr ps u none).to_ogc_wkt
      = (ProjCS.init pn g pr ps u (some (directions_East, directions_North))).to_ogc_wkt
  ∧ (ProjCS.init pn g pr ps u none).to_esri_wkt
      = (ProjCS.init pn g pr ps u (some (directions_East, directions_North))).to_esri_wkt :=
  ⟨rfl, rfl, rfl, rfl, rfl, rfl, rfl⟩

/-- C8: the Ellipsoid constructor fills a missing semimajor-axis or
inverse-flattening argument from the catalog entry referenced by the name, so
both fields always hold a concrete value after construction. -/
theorem claim_C8 (name : EllipsoidName) (oa ob : Option String) :
    ((Ellipsoid.init name oa ob).semimaj_ax
        = match oa with
          | some a => a
          | none => name.semimaj_ax)
  ∧ ((Ellipsoid.init name oa ob).inv_flat
        = match ob with
          | some f => f
          | none => name.inv_flat) := by
  cases oa <;> cases ob <;> exact ⟨rfl, rfl⟩

/-- C9: each of the three renders of a fixed CRS tree is deterministic; the
renders are pure functions of the immutable tree, so two calls on the same
tree return identical strings. -/
theorem claim_C9 (c : CRS) :
    c.to_proj4 = c.to_proj4 ∧ c.to_ogc_wkt = c.to_ogc_wkt ∧ c.to_esri_wkt = c.to_esri_wkt :=
  ⟨rfl, rfl, rfl⟩

/-- C10: the CRS constructor accepts any root value without validation, and
`to_proj4` on a root that is neither a ProjCS nor a GeogCS falls through both
`isinstance` branches and returns no string (Python `None`). -/
theorem claim_C10 :
    (∀ t : TopLevel, (CRS.init t).toplevel = t)
  ∧ CRS.to_proj4 (CRS.init TopLevel.other) = none :=
  ⟨fun _ => rfl, rfl⟩

/-- C2: when the ellipsoid name is the Unknown sentinel or its catalog entry
has no PROJ identifier, the PROJ render is exactly the raw numeric form with no
`+ellps=` token; otherwise it is the named form — the numeric values appear in
the PROJ output in every case. -/
theorem claim_C2 (e : Ellipsoid) (h2 : plusFree e.semimaj_ax) (h3 : plusFree e.inv_flat) :
    ((e.name.isUnknown = true ∨ e.name.proj4 = "") →
        e.to_proj4 = "+a=" ++ e.semimaj_ax ++ " +f=" ++ e.inv_flat
      ∧ ¬ hasTok "+ellps=" e.to_proj4)
  ∧ (e.name.isUnknown = false → e.name.proj4 ≠ "" →
        e.to_proj4 = "+ellps=" ++ e.name.proj4 ++ " +a=" ++ e.semimaj_ax
          ++ " +f=" ++ e.inv_flat) := by
  constructor
  · intro hcase
    have heq : e.to_proj4 = "+a=" ++ e.semimaj_ax ++ " +f=" ++ e.inv_flat := by
      rw [Ellipsoid.to_proj4]
      rcases hcase with hu | hid
      · rw [if_pos hu]
      · by_cases hu : e.name.isUnknown = true
        · rw [if_pos hu]
        · rw [if_neg hu, if_pos hid]
    refine ⟨heq, ?_⟩
    intro h
    have h' : ('+' :: 'e' :: 'l' :: 'l' :: 'p' :: 's' :: '=' :: [])
        <:+: ("+a=" ++ e.semimaj_ax ++ " +f=" ++ e.inv_flat).data := heq ▸ h
    have hdata : ("+a=" ++ e.semimaj_ax ++ " +f=" ++ e.inv_flat).data
        = ('+' :: 'a' :: '=' :: e.semimaj_ax.data)
          ++ ' ' :: ('+' :: 'f' :: '=' :: e.inv_flat.data) := by
      simp [data_app, List.append_assoc]
    rw [hdata] at h'
    rcases splitAtSpace (by decide) h' with hL | hR
    · exact noTokInPiece2 (by decide)
        (@notMemLitApp '+' ['a', '='] e.semimaj_ax.data (by decide) h2) hL
    · exact noTokInPiece2 (by decide)
        (@notMemLitApp '+' ['f', '='] e.inv_flat.data (by decide) h3) hR
  · intro hu hid
    rw [Ellipsoid.to_proj4, if_neg (by simp [hu]), if_neg hid]

/-- C1: the Datum PROJ render follows the branch priority: with a present
shift it is ellipsoid render, space, shift render and carries no `+datum=`
token; with an Unknown name, or a name with no PROJ identifier, it is exactly
the ellipsoid render; otherwise it is `+datum=<id>` then the ellipsoid
render. -/
theorem claim_C1 (d : Datum)
    (hp1 : plusFree d.ellips.name.proj4) (hp2 : plusFree d.ellips.semimaj_ax)
    (hp3 : plusFree d.ellips.inv_flat)
    (hds : ∀ ds, d.datumshift = some ds → ¬ hasTok "+datum=" ds.proj4) :
    (∀ ds, d.datumshift = some ds →
        d.to_proj4 = d.ellips.to_proj4 ++ " " ++ ds.proj4
      ∧ ¬ hasTok "+datum=" d.to_proj4)
  ∧ (d.datumshift = none → d.name.isUnknown = true → d.to_proj4 = d.ellips.to_proj4)
  ∧ (d.datumshift = none → d.name.isUnknown = false → d.name.proj4 = "" →
        d.to_proj4 = d.ellips.to_proj4)
  ∧ (d.datumshift = none → d.name.isUnknown = false → d.name.proj4 ≠ "" →
        d.to_proj4 = "+datum=" ++ d.name.proj4 ++ " " ++ d.ellips.to_proj4) := by
  refine ⟨?_, ?_, ?_, ?_⟩
  · intro ds hdsm
    have heq : d.to_proj4 = d.ellips.to_proj4 ++ " " ++ ds.proj4 := by
      simp [Datum.to_proj4, hdsm, DatumShift.to_proj4]
    refine ⟨heq, ?_⟩
    intro h
    have h' : ('+' :: 'd' :: 'a' :: 't' :: 'u' :: 'm' :: '=' :: [])
        <:+: (d.ellips.to_proj4 ++ " " ++ ds.proj4).data := heq ▸ h
    have hdata : (d.ellips.to_proj4 ++ " " ++ ds.proj4).data
        = d.ellips.to_proj4.data ++ ' ' :: ds.proj4.data := by
      simp [data_app]
    rw [hdata] at h'
    rcases splitAtSpace (by decide) h' with hL | hR
    · exact ellipsNoTok d.ellips (by decide) (by decide) (by decide) (by decide)
        hp1 hp2 hp3 hL
    · exact hds ds hdsm hR
  · intro h0 hu
    simp [Datum.to_proj4, h0, hu]
  · intro h0 hu hid
    simp [Datum.to_proj4, h0, hu, hid]
  · intro h0 hu hid
    simp [Datum.to_proj4, h0, hu, hid]

/-- C7: the GeogCS PROJ render is exactly the space-separated concatenation of
the datum, prime-meridian and angular-unit renders; it does not depend on the
stored axis pair and contains no `+axis=` token. -/
theorem claim_C7 (g : GeogCS)
    (hp1 : plusFree g.datum.ellips.name.proj4) (hp2 : plusFree g.datum.ellips.semimaj_ax)
    (hp3 : plusFree g.datum.ellips.inv_flat) (hp4 : plusFree g.datum.name.proj4)
    (hds : ∀ ds, g.datum.datumshift = some ds → ¬ hasTok "+axis=" ds.proj4)
    (hpm : ¬ hasTok "+axis=" g.prime_mer.proj4)
    (hau : ¬ hasTok "+axis=" g.angunit.proj4) :
    g.to_proj4 = g.datum.to_proj4 ++ " " ++ g.prime_mer.to_proj4 ++ " " ++ g.angunit.to_proj4
  ∧ (∀ ax : Direction × Direction,
      (GeogCS.mk g.name g.datum g.prime_mer g.angunit ax).to_proj4 = g.to_proj4)
  ∧ ¬ hasTok "+axis=" g.to_proj4 := by
  refine ⟨rfl, fun ax => rfl, ?_⟩
  intro h
  have h' : ('+' :: 'a' :: 'x' :: 'i' :: 's' :: '=' :: []) <:+: g.to_proj4.data := h
  exact geogNoTok g (by decide) (by decide) (by decide) (by decide) (by decide)
    hp1 hp2 hp3 hp4 (fun ds hm => hds ds hm) hpm hau h'

/-- C3: a Geographic-rooted CRS renders `+proj=longlat `, the GeogCS render,
then ` +no_defs`; a Projected-rooted CRS renders the ProjCS render then
` +no_defs` and contains no `+proj=longlat` token; the ` +no_defs` suffix is
unconditional in both cases. -/
theorem claim_C3 (g : GeogCS) (p : ProjCS)
    (hid : ¬ hasPre "longlat" p.proj.value.proj4)
    (hq0 : plusFree p.proj.value.proj4)
    (hq1 : plusFree p.geogcs.datum.ellips.name.proj4)
    (hq2 : plusFree p.geogcs.datum.ellips.semimaj_ax)
    (hq3 : plusFree p.geogcs.datum.ellips.inv_flat)
    (hq4 : plusFree p.geogcs.datum.name.proj4)
    (hq5 : plusFree p.twin_ax.1.proj4) (hq6 : plusFree p.twin_ax.2.proj4)
    (hds : ∀ ds, p.geogcs.datum.datumshift = some ds → ¬ hasTok "+proj=longlat" ds.proj4)
    (hpm : ¬ hasTok "+proj=longlat" p.geogcs.prime_mer.proj4)
    (hau : ¬ hasTok "+proj=longlat" p.geogcs.angunit.proj4)
    (hun : ¬ hasTok "+proj=longlat" p.unit.proj4)
    (hpar : ∀ r ∈ p.params, ¬ hasTok "+proj=longlat" r.proj4) :
    CRS.to_proj4 (CRS.init (TopLevel.geogcs g))
      = some ("+proj=longlat " ++ g.to_proj4 ++ " +no_defs")
  ∧ CRS.to_proj4 (CRS.init (TopLevel.projcs p)) = some (p.to_proj4 ++ " +no_defs")
  ∧ ¬ hasTok "+proj=longlat" (p.to_proj4 ++ " +no_defs") := by
  refine ⟨rfl, rfl, ?_⟩
  intro h
  have h' : ('+' :: 'p' :: 'r' :: 'o' :: 'j' :: '=' :: 'l' :: 'o' :: 'n' :: 'g' :: 'l' :: 'a' :: 't' :: [])
      <:+: (p.to_proj4 ++ " +no_defs").data := h
  have hdata : (p.to_proj4 ++ " +no_defs").data
      = ('+' :: 'p' :: 'r' :: 'o' :: 'j' :: '=' :: p.proj.value.proj4.data)
        ++ ' ' :: (p.geogcs.to_proj4.data
          ++ ' ' :: ((joinWith " " (p.params.map RenderObj.to_proj4)).data
            ++ ' ' :: (p.unit.proj4.data
              ++ ' ' :: (('+' :: 'a' :: 'x' :: 'i' :: 's' :: '='
                  :: (p.twin_ax.1.proj4.data ++ p.twin_ax.2.proj4.data ++ ['u']))
                ++ ' ' :: ('+' :: 'n' :: 'o' :: '_' :: 'd' :: 'e' :: 'f' :: 's' :: []))))) := by
    simp [ProjCS.to_proj4, Projection.to_proj4, RenderObj.to_proj4, data_app, List.append_assoc]
  rw [hdata] at h'
  have hsp : ' ' ∉ ('+' :: 'p' :: 'r' :: 'o' :: 'j' :: '=' :: 'l' :: 'o' :: 'n' :: 'g' :: 'l' :: 'a' :: 't' :: ([] : List Char)) := by decide
  rcases splitAtSpace hsp h' with h1 | h'
  · have hanch := plusAnchor
      (@notMemLitApp '+' ['p', 'r', 'o', 'j', '='] p.proj.value.proj4.data (by decide) hq0) h1
    obtain ⟨-, hpre⟩ := consPreCons hanch
    obtain ⟨-, hpre⟩ := consPreCons hpre
    obtain ⟨-, hpre⟩ := consPreCons hpre
    obtain ⟨-, hpre⟩ := consPreCons hpre
    obtain ⟨-, hpre⟩ := consPreCons hpre
    obtain ⟨-, hpre⟩ := consPreCons hpre
    exact hid hpre
  rcases splitAtSpace hsp h' with h2 | h'
  · exact geogNoTok p.geogcs hsp (by decide) (by decide) (by decide) (by decide)
      hq1 hq2 hq3 hq4 (fun ds hm => hds ds hm) hpm hau h2
  rcases splitAtSpace hsp h' with h3 | h'
  · obtain ⟨s, hs, hw⟩ := splitJoin hsp (by decide) _ h3
    obtain ⟨r, hr, rfl⟩ := List.mem_map.mp hs
    exact hpar r hr hw
  rcases splitAtSpace hsp h' with h4 | h'
  · exact hun h4
  rcases splitAtSpace hsp h' with h5 | h6
  · have hax : '+' ∉ p.twin_ax.1.proj4.data ++ p.twin_ax.2.proj4.data ++ ['u'] := by
      intro hm
      rcases List.mem_append.mp hm with hm | hm
      · rcases List.mem_append.mp hm with hm | hm
        · exact hq5 hm
        · exact hq6 hm
      · exact absurd hm (by decide)
    exact noTokInPiece2 (by decide)
      (@notMemLitApp '+' ['a', 'x', 'i', 's', '=']
        (p.twin_ax.1.proj4.data ++ p.twin_ax.2.proj4.data ++ ['u']) (by decide) hax) h5
  · exact noTokInPiece2 (by decide) (by decide) h6

/-- Concrete WGS84-style datum shift used by the witnesses. -/
def sampleShift : DatumShift :=
  { proj4 := "+towgs84=0,0,0"
    ogc_wkt := "TOWGS84[0, 0, 0]"
    esri_wkt := "TOWGS84[0, 0, 0]" }

/-- Concrete named ellipsoid used by the witnesses. -/
def sampleEllipsoid : Ellipsoid :=
  { name := { isUnknown := false, proj4 := "WGS84", ogc_wkt := "WGS_1984",
              esri_wkt := "WGS_1984", semimaj_ax := "6378137.0", inv_flat := "298.257223563" }
    semimaj_ax := "6378137.0"
    inv_flat := "298.257223563" }

/-- Concrete Unknown-named ellipsoid used by the witnesses. -/
def sampleUnknownEllipsoid : Ellipsoid :=
  { name := { isUnknown := true, proj4 := "", ogc_wkt := "Unknown",
              esri_wkt := "Unknown", semimaj_ax := "6378137.0", inv_flat := "298.257223563" }
    semimaj_ax := "6378137.0"
    inv_flat := "298.257223563" }

/-- Concrete datum with a datum shift, used by the witnesses. -/
def sampleDatum : Datum :=
  { name := { isUnknown := false, proj4 := "WGS84", ogc_wkt := "WGS_1984", esri_wkt := "D_WGS_1984" }
    ellips := sampleEllipsoid
    datumshift := some sampleShift }

/-- Concrete datum without a datum shift, used by the witnesses. -/
def sampleDatumNoShift : Datum :=
  { name := { isUnknown := false, proj4 := "WGS84", ogc_wkt := "WGS_1984", esri_wkt := "D_WGS_1984" }
    ellips := sampleEllipsoid
    datumshift := none }

/-- Concrete prime meridian render, used by the witnesses. -/
def samplePrimeMer : RenderObj :=
  { proj4 := "+pm=greenwich"
    ogc_wkt := "PRIMEM[\"Greenwich\", 0]"
    esri_wkt := "PRIMEM[\"Greenwich\", 0]" }

/-- Concrete angular unit render, used by the witnesses. -/
def sampleAngUnit : RenderObj :=
  { proj4 := "+to_meter=0.0174532925199433"
    ogc_wkt := "UNIT[\"degree\", 0.0174532925199433]"
    esri_wkt := "UNIT[\"Degree\", 0.0174532925199433]" }

/-- Concrete GeogCS (no datum shift), used by the witnesses. -/
def sampleGeogCS : GeogCS :=
  { name := "GCS_WGS_1984"
    datum := sampleDatumNoShift
    prime_mer := samplePrimeMer
    angunit := sampleAngUnit
    twin_ax := (directions_East, directions_North) }

/-- Concrete GeogCS whose datum carries a shift, used by the witnesses. -/
def sampleGeogShift : GeogCS :=
  { name := "GCS_WGS_1984"
    datum := sampleDatum
    prime_mer := samplePrimeMer
    angunit := sampleAngUnit
    twin_ax := (directions_East, directions_North) }

/-- Concrete ProjCS, used by the witnesses. -/
def sampleProjCS : ProjCS :=
  { name := "Sample_Transverse_Mercator"
    geogcs := sampleGeogCS
    proj := { value := { proj4 := "tmerc", ogc_wkt := "Transverse_Mercator",
                         esri_wkt := "Transverse_Mercator" } }
    params := [ { proj4 := "+lon_0=0.0", ogc_wkt := "PARAMETER[\"Central_Meridian\", 0.0]",
                  esri_wkt := "PARAMETER[\"Central_Meridian\", 0.0]" } ]
    unit := { proj4 := "+to_meter=1.0", ogc_wkt := "UNIT[\"Meter\", 1.0]",
              esri_wkt := "UNIT[\"Meter\", 1.0]" }
    twin_ax := (directions_East, directions_North) }

/-- Witness for C1 at a concrete datum carrying a datum shift. -/
theorem claim_C1_witness :
    (∀ ds, sampleDatum.datumshift = some ds →
        sampleDatum.to_proj4 = sampleDatum.ellips.to_proj4 ++ " " ++ ds.proj4
      ∧ ¬ hasTok "+datum=" sampleDatum.to_proj4)
  ∧ (sampleDatum.datumshift = none → sampleDatum.name.isUnknown = true →
        sampleDatum.to_proj4 = sampleDatum.ellips.to_proj4)
  ∧ (sampleDatum.datumshift = none → sampleDatum.name.isUnknown = false →
        sampleDatum.name.proj4 = "" → sampleDatum.to_proj4 = sampleDatum.ellips.to_proj4)
  ∧ (sampleDatum.datumshift = none → sampleDatum.name.isUnknown = false →
        sampleDatum.name.proj4 ≠ "" →
        sampleDatum.to_proj4
          = "+datum=" ++ sampleDatum.name.proj4 ++ " " ++ sampleDatum.ellips.to_proj4) :=
  claim_C1 sampleDatum (by decide) (by decide) (by decide)
    (fun ds h => by
      have h' : some sampleShift = some ds := h
      injection h' with h2
      subst h2
      decide)

/-- Witness for C2 at a concrete Unknown-named ellipsoid with the WGS84
numeric values. -/
theorem claim_C2_witness :
    ((sampleUnknownEllipsoid.name.isUnknown = true ∨ sampleUnknownEllipsoid.name.proj4 = "") →
        sampleUnknownEllipsoid.to_proj4
          = "+a=" ++ sampleUnknownEllipsoid.semimaj_ax ++ " +f=" ++ sampleUnknownEllipsoid.inv_flat
      ∧ ¬ hasTok "+ellps=" sampleUnknownEllipsoid.to_proj4)
  ∧ (sampleUnknownEllipsoid.name.isUnknown = false → sampleUnknownEllipsoid.name.proj4 ≠ "" →
        sampleUnknownEllipsoid.to_proj4
          = "+ellps=" ++ sampleUnknownEllipsoid.name.proj4 ++ " +a="
            ++ sampleUnknownEllipsoid.semimaj_ax ++ " +f=" ++ sampleUnknownEllipsoid.inv_flat) :=
  claim_C2 sampleUnknownEllipsoid (by decide) (by decide)

/-- Witness for C3 at a concrete geographic CRS and a concrete projected CRS. -/
theorem claim_C3_witness :
    CRS.to_proj4 (CRS.init (TopLevel.geogcs sampleGeogCS))
      = some ("+proj=longlat " ++ sampleGeogCS.to_proj4 ++ " +no_defs")
  ∧ CRS.to_proj4 (CRS.init (TopLevel.projcs sampleProjCS))
      = some (sampleProjCS.to_proj4 ++ " +no_defs")
  ∧ ¬ hasTok "+proj=longlat" (sampleProjCS.to_proj4 ++ " +no_defs") :=
  claim_C3 sampleGeogCS sampleProjCS (by decide) (by decide) (by decide) (by decide)
    (by decide) (by decide) (by decide) (by decide)
    (fun ds h => nomatch h)
    (by decide) (by decide) (by decide) (by decide)

/-- Witness for C7 at a concrete GeogCS whose datum carries a shift. -/
theorem claim_C7_witness :
    (sampleGeogShift.to_proj4
      = sampleGeogShift.datum.to_proj4 ++ " " ++ sampleGeogShift.prime_mer.to_proj4
        ++ " " ++ sampleGeogShift.angunit.to_proj4)
  ∧ (∀ ax : Direction × Direction,
      (GeogCS.mk sampleGeogShift.name sampleGeogShift.datum sampleGeogShift.prime_mer
        sampleGeogShift.angunit ax).to_proj4 = sampleGeogShift.to_proj4)
  ∧ ¬ hasTok "+axis=" sampleGeogShift.to_proj4 :=
  claim_C7 sampleGeogShift (by decide) (by decide) (by decide) (by decide)
    (fun ds h => by
      have h' : some sampleShift = some ds := h
      injection h' with h2
      subst h2
      decide)
    (by decide) (by decide)
